import Mathlib

/-!
Verification development for the Media Info Web Browser (app.py).

The Python source is shallowly embedded: strings are handled through their
character lists so that every definition evaluates by kernel reduction,
floating-point arithmetic over values of the form num/den is replaced by
exact integer arithmetic with round-half-to-even (the rounding used by
Python float formatting; all values rounded by the source are dyadic or
far from ties at the claims under study), and Python exceptions are
modelled with Option, where none is the exception that the enclosing
try/except of the source observes.
-/

/-- Model of Python str.split(sep) for a single-character separator. -/
def split_on_char (sep : Char) : List Char → List (List Char)
  | [] => [[]]
  | c :: cs =>
    let rest := split_on_char sep cs
    if c = sep then [] :: rest
    else
      match rest with
      | [] => [[c]]
      | r :: rs => (c :: r) :: rs

/-- Numeric value of a digit string (most significant first). -/
def digits_val (cs : List Char) : Nat :=
  cs.foldl (fun n c => n * 10 + (c.toNat - 48)) 0

/-- All characters are decimal digits. -/
def all_digits (cs : List Char) : Bool := cs.all Char.isDigit

/-- Model of Python int(s): an optional sign followed by decimal digits. -/
def int_of_chars : List Char → Option Int
  | [] => none
  | '-' :: rest =>
      if !rest.isEmpty && all_digits rest then some (-(digits_val rest : Int)) else none
  | '+' :: rest =>
      if !rest.isEmpty && all_digits rest then some ((digits_val rest : Nat) : Int) else none
  | cs =>
      if all_digits cs then some ((digits_val cs : Nat) : Int) else none

/-- Model of Python int(s) on a string. -/
def str_to_int (s : String) : Option Int := int_of_chars s.data

/-- Unsigned decimal literal, as num/den with den a power of ten. -/
def ufloat_of_chars (cs : List Char) : Option (Int × Int) :=
  match split_on_char '.' cs with
  | [ip] => if !ip.isEmpty && all_digits ip then some ((digits_val ip : Nat), 1) else none
  | [ip, fp] =>
      if (!ip.isEmpty || !fp.isEmpty) && all_digits ip && all_digits fp then
        some (((digits_val ip * 10 ^ fp.length + digits_val fp : Nat) : Int),
              ((10 ^ fp.length : Nat) : Int))
      else none
  | _ => none

/-- Model of Python float(s) for decimal literals, as an exact fraction. -/
def str_to_float (s : String) : Option (Int × Int) :=
  match s.data with
  | '-' :: rest => (ufloat_of_chars rest).map (fun p => (-p.1, p.2))
  | '+' :: rest => ufloat_of_chars rest
  | cs => ufloat_of_chars cs

/-- Nearest integer to num/den, ties to even, as Python float formatting rounds. -/
def round_half_even_div (num den : Int) : Int :=
  let n := if den < 0 then -num else num
  let d := if den < 0 then -den else den
  let f := n.fdiv d
  let r2 := 2 * (n - f * d)
  if r2 < d then f else if d < r2 then f + 1 else if f % 2 = 0 then f else f + 1

/-- Left-pad a digit string with zeros to width d. -/
def pad_zeros (s : String) (d : Nat) : String :=
  if s.length < d then (List.replicate (d - s.length) '0').asString ++ s else s

/-- Fixed-point rendering of num/den with d decimal places, as Python format .df. -/
def fmt_fixed (num den : Int) (d : Nat) : String :=
  let m := round_half_even_div (num * ((10 : Int) ^ d)) den
  let sign := if m < 0 then "-" else ""
  let a := m.natAbs
  if d = 0 then sign ++ toString a
  else sign ++ toString (a / 10 ^ d) ++ "." ++ pad_zeros (toString (a % 10 ^ d)) d

/-- Unit ladder of the size formatter (app.py lines 153 and 400). -/
def size_units : List String := ["B", "KB", "MB", "GB", "TB"]

/-- Loop of the size formatter: value is num/den, den the unit scale so far;
none models the loop exhausting the unit list without a break, which leaves
the size unassigned in the source. -/
def format_size_go (num den : Int) : List String → Option String
  | [] => none
  | u :: us =>
      if num < 1024 * den then some (fmt_fixed num den 1 ++ " " ++ u)
      else format_size_go num (den * 1024) us

/-- Size formatter of app.py (lines 151-157 and 397-404). -/
def format_size (b : Int) : Option String := format_size_go b 1 size_units

/-- Two-digit zero-padded rendering of a nonnegative integer, Python format 02d. -/
def pad2 (n : Int) : String :=
  if 0 ≤ n ∧ n < 10 then "0" ++ toString n.natAbs
  else if n < 0 then "-" ++ toString n.natAbs
  else toString n.natAbs

/-- Duration formatting of app.py lines 144-148, on the exact value num/den seconds. -/
def format_duration (num den : Int) : String :=
  let hours := num.fdiv (3600 * den)
  let rem1 := num - hours * (3600 * den)
  let minutes := rem1.fdiv (60 * den)
  let rem2 := num - (num.fdiv (60 * den)) * (60 * den)
  let seconds := rem2.fdiv den
  pad2 hours ++ ":" ++ pad2 minutes ++ ":" ++ pad2 seconds

/-- Framerate handling of app.py lines 193-200. The outer none models an
exception escaping to the catch-all of get_video_info (unpack of a split with
more than two fields, or int() on a malformed field); some none models no
framerate being set; some (some s) models the rendered framerate. -/
def framerate_of (s : String) : Option (Option String) :=
  if s.data.contains '/' then
    match split_on_char '/' s.data with
    | [nums, dens] =>
        match int_of_chars dens with
        | none => none
        | some den =>
            if den ≠ 0 then
              match int_of_chars nums with
              | none => none
              | some num => some (some (fmt_fixed num den 2 ++ " fps"))
            else some none
    | _ => none
  else some none

/-- Index of the last dot in a character list, if any. -/
def last_dot_index (cs : List Char) : Option Nat :=
  ((cs.enum.filter (fun p => p.2 == '.')).getLast?).map (fun p => p.1)

/-- Model of pathlib suffix: the extension of a file name, empty when the only
dot is leading or trailing. -/
def path_suffix (name : String) : String :=
  match last_dot_index name.data with
  | some i => if 0 < i ∧ i + 1 < name.data.length then (name.data.drop i).asString else ""
  | none => ""

/-- Lowercase a string character by character. -/
def to_lower_str (s : String) : String := (s.data.map Char.toLower).asString

/-- Uppercase a string character by character. -/
def to_upper_str (s : String) : String := (s.data.map Char.toUpper).asString

/-- SUPPORTED_EXTENSIONS of app.py line 22. -/
def supported_extensions : List String :=
  [".mp4", ".mkv", ".avi", ".mov", ".wmv", ".flv", ".webm", ".m4v", ".mpg", ".mpeg", ".3gp"]

/-- is_video_file of app.py lines 342-344. -/
def is_video_file (filename : String) : Bool :=
  supported_extensions.contains (to_lower_str (path_suffix filename))

/-- Root part of os.path.splitext on a base name: everything before the last
dot, unless all characters before that dot are dots themselves. -/
def splitext_root (name : String) : String :=
  match last_dot_index name.data with
  | none => name
  | some i =>
      if (name.data.take i).all (fun c => c == '.') then name
      else (name.data.take i).asString

/-- Extension part of os.path.splitext on a base name. -/
def splitext_ext (name : String) : String :=
  match last_dot_index name.data with
  | none => ""
  | some i =>
      if (name.data.take i).all (fun c => c == '.') then ""
      else (name.data.drop i).asString

/-- Model of os.path.basename: the part after the last slash. -/
def basename (p : String) : String :=
  (((split_on_char '/' p.data).getLast?).getD []).asString

/-- Does s start with the pattern given as the first argument. -/
def chars_startswith : List Char → List Char → Bool
  | [], _ => true
  | _ :: _, [] => false
  | p :: ps, c :: cs => p == c && chars_startswith ps cs

/-- Does the haystack contain the pattern as a contiguous substring. -/
def chars_contains : List Char → List Char → Bool
  | [], pat => pat.isEmpty
  | c :: t, pat => chars_startswith pat (c :: t) || chars_contains t pat

/-- Model of Python str.startswith. -/
def starts_with_str (s pat : String) : Bool := chars_startswith pat.data s.data

/-- Model of Python str.endswith. -/
def ends_with_str (s pat : String) : Bool :=
  chars_startswith pat.data.reverse s.data.reverse

/-- Model of the Python substring test, pat in s. -/
def contains_str (s pat : String) : Bool := chars_contains s.data pat.data

/-- Lexicographic comparison of character lists by code point, the order
Python string comparison and sorted() use. -/
def char_le_chars : List Char → List Char → Bool
  | [], _ => true
  | _ :: _, [] => false
  | a :: as, b :: bs =>
      if a.toNat < b.toNat then true
      else if b.toNat < a.toNat then false
      else char_le_chars as bs

/-- Problematic-codec section of the codec configuration; a field holding
none models the corresponding key being absent from the dictionary. -/
structure ProblematicCodecs where
  audio : Option (List String)
  video : Option (List String)
deriving DecidableEq

/-- Codec configuration dictionary; problematic_codecs is none when that key
is absent. The version entry is not consulted by the classifier. -/
structure CodecConfig where
  problematic_codecs : Option ProblematicCodecs
deriving DecidableEq

/-- is_audio_problematic of app.py lines 67-73. -/
def is_audio_problematic (audio_codec : String) (config : CodecConfig) : Bool :=
  let problematic_audio := ((config.problematic_codecs.getD ⟨none, none⟩).audio).getD []
  (problematic_audio.map to_lower_str).contains (to_lower_str audio_codec)

/-- is_video_problematic of app.py lines 75-81. -/
def is_video_problematic (video_codec : String) (config : CodecConfig) : Bool :=
  let problematic_video := ((config.problematic_codecs.getD ⟨none, none⟩).video).getD []
  (problematic_video.map to_lower_str).contains (to_lower_str video_codec)

/-- Validation in update_config, app.py lines 499-511: the root must be a
dictionary with a problematic_codecs entry whose audio and video entries, when
looked up with an empty-list default, are lists. In this typed model the
defaulted lookups are lists by construction, so only the presence of the
problematic_codecs key is tested. -/
def update_config_valid (new_config : CodecConfig) : Bool :=
  match new_config.problematic_codecs with
  | none => false
  | some _ => true

/-- Audio track record built in app.py lines 224-267; channels is none when
the probe supplied no channel count (the source stores the string Unknown). -/
structure AudioTrack where
  index : Nat
  codec : String
  channels : Option Int
  sample_rate : Option String
  bitrate : Option String
  language : String
  title : String
  disposition_default : Bool
  is_problematic : Bool
  channel_layout : Option String
deriving DecidableEq

/-- Subtitle track record of app.py lines 271-278 and 311-319; index is none
for externally discovered files (the source stores the string ext). -/
structure SubtitleTrack where
  index : Option Nat
  codec : String
  language : String
  title : String
  forced : Bool
  dflt : Bool
  external : Bool
deriving DecidableEq

/-- Video stream summary of app.py lines 124-132; is_problematic is none
until a video stream has been seen, matching the key being absent. -/
structure VideoStream where
  codec : Option String
  resolution : Option String
  framerate : Option String
  bitrate : Option String
  profile : Option String
  pixel_format : Option String
  aspect_ratio : Option String
  is_problematic : Option Bool
deriving DecidableEq

/-- Compatibility verdict of app.py lines 326-334. -/
structure Compatibility where
  primary_audio_problematic : Bool
  primary_audio_codec : Option String
  video_problematic : Bool
  video_codec : Option String
  needs_remux : Bool
  problematic_track_count : Nat
  total_audio_tracks : Nat
deriving DecidableEq

/-- Normalized video info returned by get_video_info, app.py lines 119-336. -/
structure VideoInfo where
  duration : Option String
  size : Option String
  bitrate : Option String
  container : Option String
  video : VideoStream
  audio_tracks : List AudioTrack
  subtitle_tracks : List SubtitleTrack
  chapters : Nat
  compatibility : Compatibility
deriving DecidableEq

/-- get_primary_audio_track of app.py lines 83-94. -/
def get_primary_audio_track (audio_tracks : List AudioTrack) : Option AudioTrack :=
  match audio_tracks with
  | [] => none
  | t :: ts =>
      match (t :: ts).find? (fun track => track.disposition_default) with
      | some track => some track
      | none => some t

/-- Compatibility analysis of app.py lines 321-334. -/
def compatibility_of (audio_tracks : List AudioTrack) (video : VideoStream) :
    Compatibility :=
  let primary_audio := get_primary_audio_track audio_tracks
  let video_problematic := video.is_problematic.getD false
  let audio_problematic :=
    match primary_audio with
    | some t => t.is_problematic
    | none => false
  { primary_audio_problematic := audio_problematic
    primary_audio_codec := primary_audio.map (fun t => t.codec)
    video_problematic := video_problematic
    video_codec := video.codec
    needs_remux := audio_problematic || video_problematic
    problematic_track_count := (audio_tracks.filter (fun t => t.is_problematic)).length
    total_audio_tracks := audio_tracks.length }

/-- Format-level fields of the parsed probe output consumed by app.py
lines 139-166; none models an absent key, and numeric fields hold the raw
strings that the source passes to int() and float(). -/
structure RawFormat where
  duration : Option String
  size : Option String
  bit_rate : Option String
  format_name : Option String
deriving DecidableEq

/-- Stream-level fields of the parsed probe output consumed by app.py
lines 170-278. -/
structure RawStream where
  codec_type : String
  codec_name : Option String
  width : Option Int
  height : Option Int
  r_frame_rate : Option String
  bit_rate : Option String
  profile : Option String
  pix_fmt : Option String
  display_aspect_ratio : Option String
  channels : Option Int
  sample_rate : Option String
  channel_layout : Option String
  tags_language : Option String
  tags_title : Option String
  disposition_default : Bool
  disposition_forced : Bool
deriving DecidableEq

/-- Parsed probe output: the JSON document ffprobe printed. -/
structure RawProbe where
  format : Option RawFormat
  streams : Option (List RawStream)
deriving DecidableEq

/-- Accumulator mirroring the video_info dictionary initialized in app.py
lines 119-136, before the compatibility key is attached. -/
structure VInfoAcc where
  duration : Option String
  size : Option String
  bitrate : Option String
  container : Option String
  video : VideoStream
  audio_tracks : List AudioTrack
  subtitle_tracks : List SubtitleTrack
  chapters : Nat
deriving DecidableEq

/-- Initial video_info dictionary of app.py lines 119-136. -/
def init_video_info : VInfoAcc :=
  { duration := none, size := none, bitrate := none, container := none
    video := { codec := none, resolution := none, framerate := none, bitrate := none
               profile := none, pixel_format := none, aspect_ratio := none
               is_problematic := none }
    audio_tracks := [], subtitle_tracks := [], chapters := 0 }

/-- Resolution category suffix of app.py lines 181-191. -/
def res_category (height : Int) : String :=
  if height ≥ 2160 then " (4K)"
  else if height ≥ 1440 then " (1440p)"
  else if height ≥ 1080 then " (1080p)"
  else if height ≥ 720 then " (720p)"
  else if height ≥ 480 then " (480p)"
  else ""

/-- Rendering of an integer the way Python str() prints it. -/
def int_str (n : Int) : String :=
  if n < 0 then "-" ++ toString n.natAbs else toString n.natAbs

/-- Format section of get_video_info, app.py lines 139-166; none models an
exception from float() or int() reaching the catch-all handler. -/
def apply_format (v : VInfoAcc) : Option RawFormat → Option VInfoAcc
  | none => some v
  | some f => do
      let v ←
        match f.duration with
        | none => some v
        | some ds => do
            let p ← str_to_float ds
            some { v with duration := some (format_duration p.1 p.2) }
      let v ←
        match f.size with
        | none => some v
        | some ss => do
            let n ← str_to_int ss
            some { v with size := format_size n }
      let v ←
        match f.bit_rate with
        | none => some v
        | some bs => do
            let b ← str_to_int bs
            some { v with bitrate := some (fmt_fixed b 1000 0 ++ " kbps") }
      match f.format_name with
      | none => some v
      | some fn => some { v with container := some (to_upper_str fn) }

/-- Channel-layout inference of app.py lines 247-261. -/
def channel_layout_of (explicit : Option String) (channels : Option Int) :
    Option String :=
  match explicit with
  | some layout => some layout
  | none =>
      match channels with
      | none => none
      | some c =>
          if c = 1 then some "Mono"
          else if c = 2 then some "Stereo"
          else if c = 6 then some "5.1"
          else if c = 8 then some "7.1"
          else some (int_str c ++ " channels")

/-- Per-stream processing of get_video_info, app.py lines 170-280; i is the
enumerate index; none models an exception reaching the catch-all handler. -/
def apply_stream (config : CodecConfig) (v : VInfoAcc) (i : Nat) (s : RawStream) :
    Option VInfoAcc :=
  if s.codec_type = "video" then do
    let vv := { v.video with
                codec := some (to_upper_str (s.codec_name.getD "Unknown")) }
    let vv :=
      match s.width, s.height with
      | some w, some h =>
          { vv with resolution := some (int_str w ++ "×" ++ int_str h ++ res_category h) }
      | _, _ => vv
    let vv ←
      match s.r_frame_rate with
      | none => some vv
      | some fr => do
          let r ← framerate_of fr
          match r with
          | none => some vv
          | some fps => some { vv with framerate := some fps }
    let vv ←
      match s.bit_rate with
      | none => some vv
      | some bs => do
          let b ← str_to_int bs
          some { vv with bitrate := some (fmt_fixed b 1000 0 ++ " kbps") }
    let vv :=
      match s.profile with
      | none => vv
      | some p => { vv with profile := some p }
    let vv :=
      match s.pix_fmt with
      | none => vv
      | some p => { vv with pixel_format := some p }
    let vv :=
      match s.display_aspect_ratio with
      | none => vv
      | some a => { vv with aspect_ratio := some a }
    let vv := { vv with
                is_problematic :=
                  some (is_video_problematic (to_lower_str (s.codec_name.getD "")) config) }
    some { v with video := vv }
  else if s.codec_type = "audio" then do
    let sample_rate ←
      match s.sample_rate with
      | none => some none
      | some sr => do
          let n ← str_to_int sr
          some (some (fmt_fixed n 1000 1 ++ " kHz"))
    let bitrate ←
      match s.bit_rate with
      | none => some none
      | some bs => do
          let b ← str_to_int bs
          some (some (fmt_fixed b 1000 0 ++ " kbps"))
    let track : AudioTrack :=
      { index := i
        codec := to_upper_str (s.codec_name.getD "Unknown")
        channels := s.channels
        sample_rate := sample_rate
        bitrate := bitrate
        language := s.tags_language.getD "Unknown"
        title := s.tags_title.getD ""
        disposition_default := s.disposition_default
        is_problematic := is_audio_problematic (to_lower_str (s.codec_name.getD "")) config
        channel_layout := channel_layout_of s.channel_layout s.channels }
    some { v with audio_tracks := v.audio_tracks ++ [track] }
  else if s.codec_type = "subtitle" then
    some { v with subtitle_tracks := v.subtitle_tracks ++
            [{ index := some i
               codec := to_upper_str (s.codec_name.getD "Unknown")
               language := s.tags_language.getD "Unknown"
               title := s.tags_title.getD ""
               forced := s.disposition_forced
               dflt := s.disposition_default
               external := false }] }
  else
    some v

/-- Fixed subtitle file extensions of app.py line 285. -/
def subtitle_exts : List String := [".srt", ".ass", ".ssa", ".sub", ".idx", ".vtt"]

/-- Fixed language code set of app.py line 296. -/
def lang_codes : List String := ["en", "es", "fr", "de", "it", "pt", "ja", "ko", "zh"]

/-- External subtitle discovery of app.py lines 282-319. The sibling listing
is none when os.listdir raised, which the source swallows. -/
def external_subs (siblings : Option (List String)) (file_path : String) :
    List SubtitleTrack :=
  match siblings with
  | none => []
  | some files =>
      let filename_base := splitext_root (basename file_path)
      (files.filter (fun f =>
          (subtitle_exts.any (fun ext => ends_with_str (to_lower_str f) ext)) &&
          starts_with_str (to_lower_str f) (to_lower_str filename_base))).map
        (fun f =>
          { index := none
            codec := to_upper_str ((splitext_ext f).drop 1)
            language := (lang_codes.find? (fun lc => contains_str (to_lower_str f) lc)).getD "Unknown"
            title := f
            forced := false
            dflt := false
            external := true })

/-- get_video_info of app.py lines 99-340. The probe argument is none when
ffprobe exited nonzero, timed out, or printed unparseable output; siblings is
the directory listing used for external subtitle discovery; the result is
none exactly when the source returns None. -/
def get_video_info (probe : Option RawProbe) (siblings : Option (List String))
    (file_path : String) (config : CodecConfig) : Option VideoInfo :=
  match probe with
  | none => none
  | some data => do
      let v ← apply_format init_video_info data.format
      let v ←
        match data.streams with
        | none => some v
        | some streams =>
            streams.enum.foldlM (fun acc p => apply_stream config acc p.1 p.2) v
      let v := { v with subtitle_tracks :=
                  v.subtitle_tracks ++ external_subs siblings file_path }
      some { duration := v.duration, size := v.size, bitrate := v.bitrate
             container := v.container, video := v.video
             audio_tracks := v.audio_tracks, subtitle_tracks := v.subtitle_tracks
             chapters := v.chapters
             compatibility := compatibility_of v.audio_tracks v.video }

/-- Filesystem tree for the directory scanner. A file carries the size
os.path.getsize would report, none when that call raises; a directory carries
a readable flag, false when os.listdir on it raises a permission or OS
error. -/
inductive FsNode where
  | file (name : String) (size : Option Nat)
  | dir (name : String) (readable : Bool) (children : List FsNode)

/-- Name of a filesystem node. -/
def nodeName : FsNode → String
  | .file n _ => n
  | .dir n _ _ => n

/-- count_videos_recursive of app.py lines 346-371. Depth 0 models the
max_depth at most 0 early return; an unreadable directory models the listdir
failure the source swallows by returning the count accumulated so far, 0. -/
def count_videos_recursive : FsNode → Nat → Nat
  | _, 0 => 0
  | .file _ _, _ + 1 => 0
  | .dir _ readable children, d + 1 =>
      if !readable then 0
      else
        (children.map (fun c =>
          match c with
          | .file name _ => if is_video_file name then 1 else 0
          | .dir cname _ _ =>
              if !starts_with_str cname "." && cname != "System Volume Information"
              then count_videos_recursive c d
              else 0)).sum

/-- Result entries of scan_directory, app.py lines 389-413. -/
inductive ScanItem where
  | folder (name : String) (video_count : Nat)
  | file (name : String) (size : String) (path : String)
deriving DecidableEq

/-- Name of a scan result entry. -/
def itemName : ScanItem → String
  | .folder n _ => n
  | .file n _ _ => n

/-- Name order used to model Python sorted(os.listdir(path)). -/
def nodeLe : FsNode → FsNode → Prop :=
  fun a b => char_le_chars (nodeName a).data (nodeName b).data = true

instance : DecidableRel nodeLe := fun a b => by unfold nodeLe; infer_instance

/-- Body of the scan_directory loop, app.py lines 378-413, over the sorted
listing. The size_str argument tracks the Python local of that name across
iterations: the source leaves it unassigned when the unit loop for a huge
file exhausts, so a none result models the NameError that then escapes to the
catch-all handler of scan_directory. -/
def scan_loop (path : String) : List FsNode → Option String → Option (List ScanItem)
  | [], _ => some []
  | c :: rest, size_str =>
      match c with
      | .dir name _ _ =>
          if starts_with_str name "." || name == "System Volume Information" then
            scan_loop path rest size_str
          else
            (scan_loop path rest size_str).map
              (fun tl => ScanItem.folder name (count_videos_recursive c 10) :: tl)
      | .file name sz =>
          if is_video_file name then
            match
              (match sz with
               | none => some "Unknown"
               | some b =>
                   match format_size (b : Int) with
                   | some s => some s
                   | none => size_str) with
            | none => none
            | some s =>
                (scan_loop path rest (some s)).map
                  (fun tl => ScanItem.file name s (path ++ "/" ++ name) :: tl)
          else scan_loop path rest size_str

/-- scan_directory of app.py lines 373-419: sort the listing, filter and
annotate it; every exception, including a listdir failure on the directory
itself, is caught by the trailing handler which returns the empty list. -/
def scan_directory (node : FsNode) (path : String) : List ScanItem :=
  match node with
  | .file _ _ => []
  | .dir _ readable children =>
      if !readable then []
      else ((scan_loop path (List.insertionSort nodeLe children) none).getD [])

/-- MEDIA_ROOT default of app.py line 17. -/
def MEDIA_ROOT : String := "/mnt/wd_2tb/media"

/-- Path components the way posixpath commonpath splits them: split on the
separator and drop empty and single-dot components, keeping double dots. -/
def path_components (p : String) : List (List Char) :=
  (split_on_char '/' p.data).filter (fun c => !c.isEmpty && c ≠ ['.'])

/-- Longest common component sequence of two component lists. -/
def common_comps : List (List Char) → List (List Char) → List (List Char)
  | a :: as, b :: bs => if a = b then a :: common_comps as bs else []
  | _, _ => []

/-- Model of os.path.commonpath for two absolute paths: the shared component
sequence reassembled below the root separator. No traversal segment is
resolved, exactly as in posixpath. -/
def commonpath (p q : String) : String :=
  "/" ++ (List.intercalate ['/'] (common_comps (path_components p) (path_components q))).asString

/-- Model of Python str.lstrip with the separator character. -/
def lstrip_slash (s : String) : String := (s.data.dropWhile (fun c => c = '/')).asString

/-- full_path computation of the browse endpoint, app.py lines 429-435. -/
def browse_full_path (path : String) : String :=
  if path = "" then MEDIA_ROOT else MEDIA_ROOT ++ "/" ++ lstrip_slash path

/-- Security check of the browse endpoint, app.py line 438: true means the
request is allowed to proceed to the filesystem. -/
def browse_path_ok (path : String) : Bool :=
  commonpath MEDIA_ROOT (browse_full_path path) == MEDIA_ROOT

/-- Security check of the video-info endpoint, app.py line 473. -/
def video_info_path_ok (file_path : String) : Bool :=
  commonpath MEDIA_ROOT file_path == MEDIA_ROOT

/-- Filesystem resolution of traversal segments: a double dot removes the
preceding component, as the operating system resolves the path that the
request goes on to touch. -/
def resolve_comps (cs : List (List Char)) : List (List Char) :=
  cs.foldl (fun acc c => if c = ['.', '.'] then acc.dropLast else acc ++ [c]) []

/-- Resolved component list of an absolute path. -/
def resolved (p : String) : List (List Char) := resolve_comps (path_components p)

/-- Does the resolved location of p lie at or beneath the media root. -/
def resolved_under_root (p : String) : Bool :=
  (resolved p).take (path_components MEDIA_ROOT).length == path_components MEDIA_ROOT

/-- Entry of the problematic_files_list built in app.py lines 634-641; the
issue entries and codecs hold exactly the Python values, which can be None. -/
structure ProblemFile where
  path : String
  name : String
  issues : List (Option String)
  audio_codec : Option String
  video_codec : Option String
  size : Option String
deriving DecidableEq

/-- Aggregate statistics of bulk_analysis, app.py lines 588-600; the
percentage field is exact rational arithmetic in place of Python floats. -/
structure BulkStats where
  total_files : Nat
  compatible_files : Nat
  problematic_files : Nat
  audio_issues : Nat
  video_issues : Nat
  both_issues : Nat
  codec_breakdown_audio : List (String × Nat)
  codec_breakdown_video : List (String × Nat)
  problematic_files_list : List ProblemFile
  compatibility_percentage : ℚ

/-- Histogram update hist.get(key, 0) + 1 on an insertion-ordered dictionary. -/
def hist_incr (h : List (String × Nat)) (k : String) : List (String × Nat) :=
  if h.any (fun p => p.1 == k) then
    h.map (fun p => if p.1 == k then (p.1, p.2 + 1) else p)
  else h ++ [(k, 1)]

/-- Model of os.path.relpath for a file below the media root. -/
def relpath_under (file_path root : String) : String :=
  if starts_with_str file_path (root ++ "/") then
    (file_path.data.drop (root.data.length + 1)).asString
  else file_path

/-- Round half to even at one decimal place, the rounding of Python
round(x, 1). -/
def round1 (q : ℚ) : ℚ :=
  let f := Int.floor (q * 10)
  let r := q * 10 - f
  ((if r < 1/2 then f else if 1/2 < r then f + 1 else if f % 2 = 0 then f else f + 1 : ℤ) : ℚ) / 10

/-- Per-file body of the bulk_analysis loop, app.py lines 603-658. A probe
argument of none covers both a None result of get_video_info and a missing
compatibility key: the file is skipped without touching any counter. -/
def bulk_step (media_root : String) (stats : BulkStats) (file_path : String)
    (vi : Option VideoInfo) : BulkStats :=
  match vi with
  | none => stats
  | some info =>
      let c := info.compatibility
      let stats :=
        if c.needs_remux then
          let has_audio_issue := c.primary_audio_problematic
          let has_video_issue := c.video_problematic
          { stats with
            problematic_files := stats.problematic_files + 1
            audio_issues := stats.audio_issues + (if has_audio_issue then 1 else 0)
            video_issues := stats.video_issues + (if has_video_issue then 1 else 0)
            both_issues := stats.both_issues +
              (if has_audio_issue && has_video_issue then 1 else 0)
            problematic_files_list := stats.problematic_files_list ++
              [{ path := relpath_under file_path media_root
                 name := basename file_path
                 issues := (if has_audio_issue then [c.primary_audio_codec] else []) ++
                           (if has_video_issue then [c.video_codec] else [])
                 audio_codec := c.primary_audio_codec
                 video_codec := c.video_codec
                 size := info.size }] }
        else { stats with compatible_files := stats.compatible_files + 1 }
      let stats :=
        if info.audio_tracks.isEmpty then stats
        else
          match get_primary_audio_track info.audio_tracks with
          | some primary =>
              { stats with codec_breakdown_audio :=
                  hist_incr stats.codec_breakdown_audio (to_lower_str primary.codec) }
          | none => stats
      match info.video.codec with
      | some vc =>
          if vc ≠ "" then
            { stats with codec_breakdown_video :=
                hist_incr stats.codec_breakdown_video (to_lower_str vc) }
          else stats
      | none => stats

/-- Statistics dictionary as initialized in app.py lines 588-600:
total_files is captured from the enumeration before the loop begins. -/
def bulk_init (files : List String) : BulkStats :=
  { total_files := files.length, compatible_files := 0, problematic_files := 0
    audio_issues := 0, video_issues := 0, both_issues := 0
    codec_breakdown_audio := [], codec_breakdown_video := []
    problematic_files_list := [], compatibility_percentage := 0 }

/-- bulk_analysis of app.py lines 573-669, parameterized by the enumerated
file list and by the probe outcome of each file (the result that the
get_video_info call produced for it); the percentage is attached after the
loop, app.py lines 660-664. -/
def bulk_analysis (files : List String) (probe : String → Option VideoInfo) :
    BulkStats :=
  let s := files.foldl (fun st f => bulk_step MEDIA_ROOT st f (probe f)) (bulk_init files)
  { s with compatibility_percentage :=
      if s.total_files > 0 then
        round1 (((s.compatible_files : ℚ) / (s.total_files : ℚ)) * 100)
      else 0 }

/-- Default problematic-codec configuration of app.py lines 29-35. -/
def default_codec_config : CodecConfig :=
  { problematic_codecs :=
      some ⟨some ["dts", "dts-hd", "truehd", "flac", "pcm_s16le", "pcm_s24le"], some []⟩ }

/-- C1: the browse and video-info path checks are lexical commonpath
comparisons that never resolve traversal segments, so a request whose
resolved location lies outside the media root passes the check and proceeds
to the filesystem, contradicting the claim that it is rejected first. The
browse path ../../etc and the video-info path
/mnt/wd_2tb/media/../../../etc/passwd both pass the check while resolving
outside /mnt/wd_2tb/media. -/
theorem path_escape_not_rejected :
    browse_path_ok "../../etc" = true ∧
    resolved_under_root (browse_full_path "../../etc") = false ∧
    resolved (browse_full_path "../../etc") = [['m','n','t'], ['e','t','c']] ∧
    video_info_path_ok "/mnt/wd_2tb/media/../../../etc/passwd" = true ∧
    resolved_under_root "/mnt/wd_2tb/media/../../../etc/passwd" = false := by
  decide

/-- C9: in every compatibility verdict the classifier produces, needs_remux
is exactly the disjunction of the primary-audio and video problematic
flags. -/
theorem needs_remux_is_or (audio_tracks : List AudioTrack) (video : VideoStream) :
    (compatibility_of audio_tracks video).needs_remux =
      ((compatibility_of audio_tracks video).primary_audio_problematic ||
       (compatibility_of audio_tracks video).video_problematic) := rfl

/-- C8: primary audio selection returns the first track with the default
disposition flag, the first track in stream order when no flag is set, and
none on the empty list, in which case the verdict marks audio not
problematic. -/
theorem primary_audio_selection (ts : List AudioTrack) (video : VideoStream) :
    (∀ t, ts.find? (fun a => a.disposition_default) = some t →
        get_primary_audio_track ts = some t) ∧
    (ts.find? (fun a => a.disposition_default) = none →
        get_primary_audio_track ts = ts.head?) ∧
    get_primary_audio_track [] = none ∧
    (compatibility_of [] video).primary_audio_problematic = false := by
  refine ⟨?_, ?_, rfl, rfl⟩
  · intro t ht
    cases ts with
    | nil => simp at ht
    | cons h rest => simp [get_primary_audio_track, ht]
  · intro hn
    cases ts with
    | nil => rfl
    | cons h rest => simp [get_primary_audio_track, hn]

/-- Sample audio track used to instantiate selection theorems. -/
def sample_track (i : Nat) (d p : Bool) : AudioTrack :=
  { index := i, codec := "DTS", channels := some 6, sample_rate := none
    bitrate := none, language := "eng", title := ""
    disposition_default := d, is_problematic := p, channel_layout := some "5.1" }

/-- Witness for the primary audio selection theorem: with one non-default and
one default-flagged track, the default-flagged one is selected. -/
theorem primary_audio_selection_witness :
    [sample_track 0 false true, sample_track 1 true false].find?
        (fun a => a.disposition_default) = some (sample_track 1 true false) ∧
    get_primary_audio_track [sample_track 0 false true, sample_track 1 true false]
      = some (sample_track 1 true false) := by
  refine ⟨by decide, ?_⟩
  exact (primary_audio_selection
    [sample_track 0 false true, sample_track 1 true false]
    init_video_info.video).1 _ (by decide)

/-- C10: with the problematic_codecs key or its audio and video subkeys
absent, the codec predicates test membership in the empty list and flag
nothing, and the update endpoint validation accepts a configuration whose
problematic_codecs section has neither subkey. -/
theorem codec_predicates_missing_keys (codec : String) (other : Option (List String)) :
    is_audio_problematic codec { problematic_codecs := none } = false ∧
    is_video_problematic codec { problematic_codecs := none } = false ∧
    is_audio_problematic codec { problematic_codecs := some ⟨none, other⟩ } = false ∧
    is_video_problematic codec { problematic_codecs := some ⟨other, none⟩ } = false ∧
    update_config_valid { problematic_codecs := some ⟨none, none⟩ } = true :=
  ⟨rfl, rfl, rfl, rfl, rfl⟩

/-- Probe output whose format section carries a non-numeric size field. -/
def bad_size_probe : RawProbe :=
  { format := some { duration := none, size := some "abc", bit_rate := none
                     format_name := none }
    streams := some [] }

/-- Probe output with an empty format section and no streams. -/
def empty_format_probe : RawProbe :=
  { format := some { duration := none, size := none, bit_rate := none
                     format_name := none }
    streams := some [] }

/-- C5 counterexample: a probe output that parses as structured data but
carries the non-numeric size field abc makes get_video_info return None, the
same signal as a probe failure, instead of a VideoInfo with the size field
defaulted; with the field merely absent a VideoInfo is returned. -/
theorem malformed_size_aborts_normalization :
    get_video_info (some bad_size_probe) (some []) "/m/f.mp4" default_codec_config
      = none ∧
    (get_video_info (some empty_format_probe) (some []) "/m/f.mp4"
      default_codec_config).isSome = true := by
  decide

/-- C5 amended: a missing numeric field degrades gracefully to an absent
value, but a malformed numeric field aborts the whole normalization, which is
reported to the caller as None exactly like a probe failure. -/
theorem malformed_numeric_is_probe_failure (s fp : String) (cfg : CodecConfig)
    (hs : str_to_int s = none) :
    get_video_info
        (some { format := some { duration := none, size := some s, bit_rate := none
                                 format_name := none }
                streams := some [] })
        (some []) fp cfg = none ∧
    ∃ vi, get_video_info (some empty_format_probe) (some []) fp cfg = some vi ∧
      vi.size = none := by
  constructor
  · simp [get_video_info, apply_format, hs]
  · exact ⟨_, rfl, rfl⟩

/-- Witness for the amended malformed-field theorem at the concrete
non-numeric size abc. -/
theorem malformed_numeric_is_probe_failure_witness :
    str_to_int "abc" = none ∧
    (get_video_info
        (some { format := some { duration := none, size := some "abc", bit_rate := none
                                 format_name := none }
                streams := some [] })
        (some []) "/m/f.mp4" default_codec_config = none ∧
     ∃ vi, get_video_info (some empty_format_probe) (some []) "/m/f.mp4"
        default_codec_config = some vi ∧ vi.size = none) :=
  ⟨by decide, malformed_numeric_is_probe_failure "abc" "/m/f.mp4" default_codec_config
    (by decide)⟩

/-- C6 counterexample: at one pebibyte (1024 to the fifth power, the first
byte count whose terabyte value is not below 1024) the unit loop exhausts
without a break and no formatted size is produced at all, although the claim
promises a formatted result for every byte count; no unit of the ladder
satisfies the below-1024 condition there. -/
theorem size_formatter_huge_unformatted :
    format_size ((1024 : Int) ^ 5) = none ∧
    ((List.range 5).all
      (fun k => !(decide ((1024 : Int) ^ 5 < 1024 * 1024 ^ k)))) = true := by
  decide

/-- C6 amended: for every byte count below 1024 to the fifth power the
formatter picks the smallest unit whose scaled value is below 1024 and
renders one decimal place followed by the unit, and 0 formats as 0.0 B; at
and above 1024 to the fifth power the size is left absent. -/
theorem size_formatter_smallest_unit (b : Nat) (hlt : (b : Int) < 1024 ^ 5) :
    (∃ k, k < 5 ∧ ((b : Int) < 1024 * 1024 ^ k) ∧
      (∀ j, j < k → ¬((b : Int) < 1024 * 1024 ^ j)) ∧
      format_size (b : Int) =
        some (fmt_fixed (b : Int) (1024 ^ k) 1 ++ " " ++ size_units.getD k "")) ∧
    format_size 0 = some "0.0 B" := by
  refine ⟨?_, by decide⟩
  have e : format_size (b : Int) =
      format_size_go (b : Int) 1 ["B", "KB", "MB", "GB", "TB"] := rfl
  by_cases h0 : (b : Int) < 1024 * 1024 ^ 0
  · refine ⟨0, by norm_num, h0, by omega, ?_⟩
    rw [e]
    unfold format_size_go
    rw [if_pos (by norm_num at h0 ⊢; exact h0)]
    norm_num [size_units]
  · by_cases h1 : (b : Int) < 1024 * 1024 ^ 1
    · refine ⟨1, by norm_num, h1, ?_, ?_⟩
      · intro j hj; interval_cases j; exact h0
      · rw [e]
        unfold format_size_go
        rw [if_neg (by norm_num at h0 ⊢; exact h0)]
        unfold format_size_go
        rw [if_pos (by norm_num at h1 ⊢; exact h1)]
        norm_num [size_units]
    · by_cases h2 : (b : Int) < 1024 * 1024 ^ 2
      · refine ⟨2, by norm_num, h2, ?_, ?_⟩
        · intro j hj; interval_cases j
          · exact h0
          · exact h1
        · rw [e]
          unfold format_size_go
          rw [if_neg (by norm_num at h0 ⊢; exact h0)]
          unfold format_size_go
          rw [if_neg (by norm_num at h1 ⊢; exact h1)]
          unfold format_size_go
          rw [if_pos (by norm_num at h2 ⊢; exact h2)]
          norm_num [size_units]
      · by_cases h3 : (b : Int) < 1024 * 1024 ^ 3
        · refine ⟨3, by norm_num, h3, ?_, ?_⟩
          · intro j hj; interval_cases j
            · exact h0
            · exact h1
            · exact h2
          · rw [e]
            unfold format_size_go
            rw [if_neg (by norm_num at h0 ⊢; exact h0)]
            unfold format_size_go
            rw [if_neg (by norm_num at h1 ⊢; exact h1)]
            unfold format_size_go
            rw [if_neg (by norm_num at h2 ⊢; exact h2)]
            unfold format_size_go
            rw [if_pos (by norm_num at h3 ⊢; exact h3)]
            norm_num [size_units]
        · refine ⟨4, by norm_num, by norm_num at hlt ⊢; exact hlt, ?_, ?_⟩
          · intro j hj; interval_cases j
            · exact h0
            · exact h1
            · exact h2
            · exact h3
          · rw [e]
            unfold format_size_go
            rw [if_neg (by norm_num at h0 ⊢; exact h0)]
            unfold format_size_go
            rw [if_neg (by norm_num at h1 ⊢; exact h1)]
            unfold format_size_go
            rw [if_neg (by norm_num at h2 ⊢; exact h2)]
            unfold format_size_go
            rw [if_neg (by norm_num at h3 ⊢; exact h3)]
            unfold format_size_go
            rw [if_pos (by norm_num at hlt ⊢; exact hlt)]
            norm_num [size_units]

/-- Witness for the amended size formatter theorem at 2048 bytes, which
formats as 2.0 KB, the kilobyte unit being the smallest with scaled value
below 1024. -/
theorem size_formatter_smallest_unit_witness :
    ((2048 : Nat) : Int) < 1024 ^ 5 ∧
    ((∃ k, k < 5 ∧ (((2048 : Nat) : Int) < 1024 * 1024 ^ k) ∧
      (∀ j, j < k → ¬(((2048 : Nat) : Int) < 1024 * 1024 ^ j)) ∧
      format_size ((2048 : Nat) : Int) =
        some (fmt_fixed ((2048 : Nat) : Int) (1024 ^ k) 1 ++ " " ++ size_units.getD k "")) ∧
     format_size 0 = some "0.0 B") :=
  ⟨by decide, size_formatter_smallest_unit 2048 (by decide)⟩

/-- C7: framerate parsing of a rational string never divides by zero: with a
zero denominator no framerate value is produced and no fault occurs, and with
a nonzero denominator the quotient is rendered to two decimal places followed
by the fps suffix. -/
theorem framerate_zero_denominator_safe (s nums dens : String) (num den : Int)
    (hsplit : split_on_char '/' s.data = [nums.data, dens.data])
    (hc : s.data.contains '/' = true)
    (hden : str_to_int dens = some den)
    (hnum : str_to_int nums = some num) :
    (den = 0 → framerate_of s = some none) ∧
    (den ≠ 0 → framerate_of s = some (some (fmt_fixed num den 2 ++ " fps"))) := by
  simp only [str_to_int] at hden hnum
  have hmem : '/' ∈ s.data := by simpa using hc
  constructor
  · intro h0
    subst h0
    simp [framerate_of, hmem, hsplit, hden]
  · intro hne
    simp [framerate_of, hmem, hsplit, hden, hnum, hne]

/-- Witness for the framerate theorem: 30000/1001 renders as 29.97 fps and
25/0 produces no framerate value. -/
theorem framerate_zero_denominator_safe_witness :
    framerate_of "30000/1001" = some (some "29.97 fps") ∧
    framerate_of "25/0" = some none := by
  have h1 := framerate_zero_denominator_safe "30000/1001" "30000" "1001" 30000 1001
    (by decide) (by decide) (by decide) (by decide)
  have h2 := framerate_zero_denominator_safe "25/0" "25" "0" 25 0
    (by decide) (by decide) (by decide) (by decide)
  refine ⟨?_, h2.1 rfl⟩
  rw [h1.2 (by decide)]
  decide

/-- C4 counterexample: a directory the process cannot read yields the same
empty listing as an empty readable directory, so a top-level permission
failure of scan_directory is swallowed into an ordinary empty result rather
than propagated as a scan failure. -/
theorem toplevel_scan_error_swallowed :
    scan_directory (.dir "locked" false [.file "a.mp4" (some 1)]) "/m" = [] ∧
    scan_directory (.dir "empty" true []) "/m" = [] := by
  decide

/-- Totality of the code-point lexicographic comparison. -/
theorem char_le_chars_total :
    ∀ a b : List Char, char_le_chars a b = true ∨ char_le_chars b a = true
  | [], _ => Or.inl rfl
  | _ :: _, [] => Or.inr rfl
  | a :: as, b :: bs => by
      rcases Nat.lt_trichotomy a.toNat b.toNat with h | h | h
      · left; simp [char_le_chars, h]
      · have h2 : ¬a.toNat < b.toNat := by omega
        have h3 : ¬b.toNat < a.toNat := by omega
        rcases char_le_chars_total as bs with ih | ih
        · left; simp [char_le_chars, h2, h3, ih]
        · right; simp [char_le_chars, h2, h3, ih]
      · right; simp [char_le_chars, h]

/-- Transitivity of the code-point lexicographic comparison. -/
theorem char_le_chars_trans :
    ∀ a b c : List Char, char_le_chars a b = true → char_le_chars b c = true →
      char_le_chars a c = true
  | [], _, _, _, _ => rfl
  | _ :: _, [], _, h, _ => by simp [char_le_chars] at h
  | _ :: _, _ :: _, [], _, h => by simp [char_le_chars] at h
  | a :: as, b :: bs, c :: cs, h1, h2 => by
      simp only [char_le_chars] at h1 h2 ⊢
      rcases Nat.lt_trichotomy a.toNat b.toNat with hab | hab | hab
      · rcases Nat.lt_trichotomy b.toNat c.toNat with hbc | hbc | hbc
        · simp [show a.toNat < c.toNat by omega]
        · simp [show a.toNat < c.toNat by omega]
        · simp [hbc, show ¬b.toNat < c.toNat by omega] at h2
      · rcases Nat.lt_trichotomy b.toNat c.toNat with hbc | hbc | hbc
        · simp [show a.toNat < c.toNat by omega]
        · have hac1 : ¬a.toNat < c.toNat := by omega
          have hac2 : ¬c.toNat < a.toNat := by omega
          simp [show ¬a.toNat < b.toNat by omega, show ¬b.toNat < a.toNat by omega] at h1
          simp [show ¬b.toNat < c.toNat by omega, show ¬c.toNat < b.toNat by omega] at h2
          simp [hac1, hac2]
          exact char_le_chars_trans as bs cs h1 h2
        · simp [hbc, show ¬b.toNat < c.toNat by omega] at h2
      · simp [hab, show ¬a.toNat < b.toNat by omega] at h1

instance : IsTotal FsNode nodeLe := ⟨fun _ _ => char_le_chars_total _ _⟩

instance : IsTrans FsNode nodeLe :=
  ⟨fun _ _ _ h1 h2 => char_le_chars_trans _ _ _ h1 h2⟩

/-- Per-item guarantee of the directory listing on the code as written:
folder entries are neither hidden nor the reserved system-volume name, and
file entries have a supported video extension. File entries are not subject
to the hidden-name filter. -/
def scan_item_ok : ScanItem → Prop
  | .folder n _ => starts_with_str n "." = false ∧ (n == "System Volume Information") = false
  | .file n _ _ => is_video_file n = true

/-- Names of the items a successful scan loop produces form a sublist of the
names of the listing it walked. -/
theorem scan_loop_names_sublist (path : String) :
    ∀ (l : List FsNode) (last : Option String) (res : List ScanItem),
      scan_loop path l last = some res →
      (res.map itemName).Sublist (l.map nodeName)
  | [], _, res, h => by
      simp only [scan_loop, Option.some.injEq] at h
      simp [← h]
  | c :: rest, last, res, h => by
      match c with
      | .file name sz =>
          simp only [scan_loop] at h
          by_cases hv : is_video_file name = true
          · rw [if_pos hv] at h
            rcases hm : (match sz with
               | none => some "Unknown"
               | some b =>
                   match format_size (b : Int) with
                   | some s => some s
                   | none => last) with _ | s
            · rw [hm] at h; exact absurd h (by simp)
            · rw [hm] at h
              rcases Option.map_eq_some'.mp h with ⟨tl, htl, hres⟩
              subst hres
              simp only [List.map_cons, itemName, nodeName]
              exact List.Sublist.cons₂ name (scan_loop_names_sublist path rest (some s) tl htl)
          · rw [if_neg hv] at h
            exact List.Sublist.cons _ (scan_loop_names_sublist path rest last res h)
      | .dir name r ch =>
          simp only [scan_loop] at h
          by_cases hs : (starts_with_str name "." || name == "System Volume Information") = true
          · rw [if_pos hs] at h
            exact List.Sublist.cons _ (scan_loop_names_sublist path rest last res h)
          · rw [if_neg hs] at h
            rcases Option.map_eq_some'.mp h with ⟨tl, htl, hres⟩
            subst hres
            simp only [List.map_cons, itemName, nodeName]
            exact List.Sublist.cons₂ name (scan_loop_names_sublist path rest last tl htl)

/-- Every item a successful scan loop produces satisfies the per-item
guarantee. -/
theorem scan_loop_items_ok (path : String) :
    ∀ (l : List FsNode) (last : Option String) (res : List ScanItem),
      scan_loop path l last = some res → ∀ it ∈ res, scan_item_ok it
  | [], _, res, h => by
      simp only [scan_loop, Option.some.injEq] at h
      simp [← h]
  | c :: rest, last, res, h => by
      match c with
      | .file name sz =>
          simp only [scan_loop] at h
          by_cases hv : is_video_file name = true
          · rw [if_pos hv] at h
            rcases hm : (match sz with
               | none => some "Unknown"
               | some b =>
                   match format_size (b : Int) with
                   | some s => some s
                   | none => last) with _ | s
            · rw [hm] at h; exact absurd h (by simp)
            · rw [hm] at h
              rcases Option.map_eq_some'.mp h with ⟨tl, htl, hres⟩
              subst hres
              intro it hit
              rcases List.mem_cons.mp hit with hh | hh
              · subst hh; exact hv
              · exact scan_loop_items_ok path rest (some s) tl htl it hh
          · rw [if_neg hv] at h
            exact scan_loop_items_ok path rest last res h
      | .dir name r ch =>
          simp only [scan_loop] at h
          by_cases hs : (starts_with_str name "." || name == "System Volume Information") = true
          · rw [if_pos hs] at h
            exact scan_loop_items_ok path rest last res h
          · rw [if_neg hs] at h
            rcases Option.map_eq_some'.mp h with ⟨tl, htl, hres⟩
            subst hres
            intro it hit
            rcases List.mem_cons.mp hit with hh | hh
            · subst hh
              simp only [Bool.or_eq_true, not_or] at hs
              exact ⟨by simpa using hs.1, by simpa using hs.2⟩
            · exact scan_loop_items_ok path rest last tl htl it hh

/-- C3 counterexample: a hidden file whose name has a video extension is
returned by the listing, so the hidden-name exclusion does not apply to file
entries as the claim states. -/
theorem hidden_file_listed :
    scan_directory (.dir "media" true [.file ".hidden.mp4" (some 5)]) "/m"
      = [ScanItem.file ".hidden.mp4" "5.0 B" "/m/.hidden.mp4"] ∧
    starts_with_str ".hidden.mp4" "." = true := by
  decide

/-- C3 amended: the listing is sorted lexicographically by name, folder
entries are never hidden nor the reserved system-volume name, and file
entries are exactly the entries with a supported video extension: the
hidden-name and reserved-name exclusions apply to folder entries only, so a
hidden file with a video extension is listed. -/
theorem scan_directory_filter_sorted (node : FsNode) (path : String) :
    (scan_directory node path).Pairwise
      (fun a b => char_le_chars (itemName a).data (itemName b).data = true) ∧
    ∀ it ∈ scan_directory node path, scan_item_ok it := by
  match node with
  | .file n sz => exact ⟨List.Pairwise.nil, by simp [scan_directory]⟩
  | .dir n readable children =>
      by_cases hr : readable = true
      · rcases hl : scan_loop path (List.insertionSort nodeLe children) none with _ | res
        · constructor
          · simp [scan_directory, hr, hl]
          · simp [scan_directory, hr, hl]
        · have hsd : scan_directory (.dir n readable children) path = res := by
            simp [scan_directory, hr, hl]
          have hsorted : (List.insertionSort nodeLe children).Pairwise nodeLe :=
            List.sorted_insertionSort nodeLe children
          have hnames : ((List.insertionSort nodeLe children).map nodeName).Pairwise
              (fun a b => char_le_chars a.data b.data = true) :=
            List.pairwise_map.mpr hsorted
          have hsub := scan_loop_names_sublist path _ none res hl
          have hresnames : (res.map itemName).Pairwise
              (fun a b => char_le_chars a.data b.data = true) :=
            hnames.sublist hsub
          constructor
          · rw [hsd]
            exact List.pairwise_map.mp hresnames
          · rw [hsd]
            exact scan_loop_items_ok path _ none res hl
      · have hr2 : readable = false := by simpa using hr
        subst hr2
        exact ⟨by simp [scan_directory], by simp [scan_directory]⟩

/-- Witness for the amended listing theorem: scanning a directory holding a
visible folder and a hidden folder yields the singleton visible folder, whose
item satisfies the per-item guarantee, and that listing is sorted. -/
theorem scan_directory_filter_sorted_witness :
    (scan_directory (.dir "media" true [.dir "b" true [], .dir ".a" true []]) "/m").Pairwise
      (fun a b => char_le_chars (itemName a).data (itemName b).data = true) ∧
    scan_item_ok (ScanItem.folder "b" 0) :=
  ⟨(scan_directory_filter_sorted
      (.dir "media" true [.dir "b" true [], .dir ".a" true []]) "/m").1,
   (scan_directory_filter_sorted
      (.dir "media" true [.dir "b" true [], .dir ".a" true []]) "/m").2
      (ScanItem.folder "b" 0) (by decide)⟩

/-- C4 amended: a permission or OS error reading a directory is swallowed at
every level: during recursive counting the unreadable directory contributes
zero, and in scan_directory the top-level failure produces the empty listing
instead of a propagated failure. -/
theorem scan_errors_swallowed (name path : String) (children : List FsNode) (d : Nat) :
    scan_directory (.dir name false children) path = [] ∧
    count_videos_recursive (.dir name false children) d = 0 := by
  constructor
  · simp [scan_directory]
  · cases d <;> simp [count_videos_recursive]

/-- One bulk-analysis step never changes the total_files counter. -/
theorem bulk_step_total_files (root : String) (st : BulkStats) (fp : String)
    (vi : Option VideoInfo) :
    (bulk_step root st fp vi).total_files = st.total_files := by
  rcases vi with _ | info
  · rfl
  · simp only [bulk_step]
    repeat' split
    all_goals simp

/-- One bulk-analysis step increases compatible_files plus problematic_files
by at most one, and by zero on a skipped file. -/
theorem bulk_step_counts (root : String) (st : BulkStats) (fp : String)
    (vi : Option VideoInfo) :
    (bulk_step root st fp vi).compatible_files + (bulk_step root st fp vi).problematic_files
      ≤ st.compatible_files + st.problematic_files + 1 := by
  rcases vi with _ | info
  · simp [bulk_step]
  · simp only [bulk_step]
    repeat' split
    all_goals simp
    all_goals omega

/-- Invariant of the bulk-analysis fold: total_files is untouched and the two
classification counters grow by at most the number of processed files. -/
theorem bulk_fold_invariant (root : String) (probe : String → Option VideoInfo) :
    ∀ (files : List String) (st : BulkStats),
      (files.foldl (fun s f => bulk_step root s f (probe f)) st).total_files
          = st.total_files ∧
      (files.foldl (fun s f => bulk_step root s f (probe f)) st).compatible_files +
        (files.foldl (fun s f => bulk_step root s f (probe f)) st).problematic_files
          ≤ st.compatible_files + st.problematic_files + files.length
  | [], st => by simp
  | f :: fs, st => by
      simp only [List.foldl_cons, List.length_cons]
      have ih := bulk_fold_invariant root probe fs (bulk_step root st f (probe f))
      have h1 := bulk_step_total_files root st f (probe f)
      have h2 := bulk_step_counts root st f (probe f)
      have ih2 := ih.2
      exact ⟨by rw [ih.1, h1], by omega⟩

/-- C2: bulk analysis reports total_files as the enumeration count captured
before the loop, a file whose probe fails contributes to neither
classification counter so their sum stays at most the enumeration count, and
the compatibility percentage is the rounded ratio when the total is positive
and 0 otherwise, without error. -/
theorem bulk_analysis_accounting (files : List String)
    (probe : String → Option VideoInfo) :
    (bulk_analysis files probe).total_files = files.length ∧
    (bulk_analysis files probe).compatible_files +
      (bulk_analysis files probe).problematic_files ≤ files.length ∧
    (∀ st fp, bulk_step MEDIA_ROOT st fp none = st) ∧
    (bulk_analysis files probe).compatibility_percentage =
      (if 0 < files.length then
         round1 (100 * ((bulk_analysis files probe).compatible_files : ℚ) /
           (files.length : ℚ))
       else 0) := by
  have hf := bulk_fold_invariant MEDIA_ROOT probe files (bulk_init files)
  have h2 := hf.2
  have hb1 : (bulk_init files).compatible_files = 0 := rfl
  have hb2 : (bulk_init files).problematic_files = 0 := rfl
  have hc : (bulk_analysis files probe).compatible_files =
      (files.foldl (fun st f => bulk_step MEDIA_ROOT st f (probe f))
        (bulk_init files)).compatible_files := rfl
  have hpb : (bulk_analysis files probe).problematic_files =
      (files.foldl (fun st f => bulk_step MEDIA_ROOT st f (probe f))
        (bulk_init files)).problematic_files := rfl
  refine ⟨hf.1, by rw [hc, hpb]; omega, fun st fp => rfl, ?_⟩
  rw [hc]
  show (if (files.foldl (fun st f => bulk_step MEDIA_ROOT st f (probe f))
              (bulk_init files)).total_files > 0 then
          round1 ((((files.foldl (fun st f => bulk_step MEDIA_ROOT st f (probe f))
              (bulk_init files)).compatible_files : ℚ) /
            ((files.foldl (fun st f => bulk_step MEDIA_ROOT st f (probe f))
              (bulk_init files)).total_files : ℚ)) * 100)
        else 0) = _
  rw [hf.1]
  show (if files.length > 0 then
          round1 ((((files.foldl (fun st f => bulk_step MEDIA_ROOT st f (probe f))
              (bulk_init files)).compatible_files : ℚ) / (files.length : ℚ)) * 100)
        else 0) = _
  by_cases hp : 0 < files.length
  · rw [if_pos hp, if_pos hp]
    congr 1
    ring
  · rw [if_neg hp, if_neg hp]
